import Mathlib

/-!
Verification development for the RESUME-AI-PROJECT repository.

The repository's `src/` tree contains the React/Redux frontend
(`frontend/src/types/index.ts`, `features/resume/resumeAPI.ts`,
`features/resume/resumeSlice.ts`, `App.tsx`, `pages/ResumeViewer.tsx`).
The FastAPI backend that implements the resume-intelligence pipeline is
not present in `src/`; where a property is decided by that missing
backend, the relevant operation is modelled from the specification and
the definition's doc comment says so explicitly.

Frontend TypeScript is embedded shallowly: interfaces become structures,
`number` becomes `Int` (all values the claims touch are integral),
`T | null` / optional fields become `Option`, JS truthiness is made
explicit, and Redux reducers become pure state-transition functions.
-/

/-! ## Data model transcribed from `frontend/src/types/index.ts` -/

/-- Shape of `AnalysisResult.keyword_coverage` in `types/index.ts`. -/
structure KeywordCoverage where
  missing_keywords : List String
deriving DecidableEq

/-- The `AnalysisResult` interface of `types/index.ts` (lines 29-35):
`ats_compliance_score`, `role_match_percentage` and `keyword_coverage`
are all required (non-optional) fields. -/
structure AnalysisResult where
  ats_compliance_score : Int
  role_match_percentage : Int
  keyword_coverage : KeywordCoverage
deriving DecidableEq

/-- The `Resume` interface of `types/index.ts`. `extracted_data` is the
one optional field (`Record<string, any>` modelled as a key/value list). -/
structure Resume where
  id : Int
  user_id : Int
  file_type : String
  ats_score : Int
  role_match : Int
  created_at : String
  extracted_data : Option (List (String × String))
deriving DecidableEq

/-- The `Improvement` interface of `types/index.ts`. -/
structure Improvement where
  id : Int
  resume_id : Int
  «section» : String
  suggestion : String
  old_text : Option String
deriving DecidableEq

/-- Field names of the declared `AnalysisResult` interface
(`types/index.ts` lines 29-35), in declaration order. -/
def analysisResultFields : List String :=
  ["ats_compliance_score", "role_match_percentage", "keyword_coverage"]

/-- Field names of the declared `Resume` interface (`types/index.ts`). -/
def resumeFields : List String :=
  ["id", "user_id", "file_type", "ats_score", "role_match", "created_at",
   "extracted_data"]

/-- Field names of the declared `Improvement` interface (`types/index.ts`). -/
def improvementFields : List String :=
  ["id", "resume_id", "section", "suggestion", "old_text"]

/-- Field names of the declared `User` interface (`types/index.ts`),
whose `github_stats` / `leetcode_stats` members carry enrichment data. -/
def userFields : List String :=
  ["id", "email", "name", "github_link", "leetcode_link", "github_stats",
   "leetcode_stats"]

/-- Field names of the `uploadResume` mutation's declared response type
`\x7b resume_id: number \x7d` (`resumeAPI.ts` line 25). -/
def uploadResponseFields : List String :=
  ["resume_id"]

/-! ## Redux resume slice (`features/resume/resumeSlice.ts`) -/

/-- The `ResumeState` interface of `resumeSlice.ts` (lines 7-19). -/
structure ResumeState where
  selectedResumeId : Option Int
  selectedResume : Option Resume
  currentAnalysis : Option AnalysisResult
  isAnalysisPanelOpen : Bool
deriving DecidableEq

/-- The `initialState` constant of `resumeSlice.ts` (lines 22-27). -/
def resumeInitialState : ResumeState :=
  { selectedResumeId := none
    selectedResume := none
    currentAnalysis := none
    isAnalysisPanelOpen := true }

/-- The `setSelectedResume` reducer (`resumeSlice.ts` lines 36-41):
`state.selectedResume = action.payload;
 state.selectedResumeId = action.payload?.id ?? null;
 state.currentAnalysis = null;`. -/
def setSelectedResume (s : ResumeState) (payload : Option Resume) : ResumeState :=
  { s with
    selectedResume := payload
    selectedResumeId := payload.map Resume.id
    currentAnalysis := none }

/-- JS truthiness of a `number | null` value: `null` and `0` are falsy. -/
def jsTruthyNum : Option Int → Bool
  | none => false
  | some n => n != 0

/-- The `getUserResumes.matchFulfilled` extra reducer
(`resumeSlice.ts` lines 78-89):
`if (state.selectedResumeId && !state.selectedResume) \x7b
   const found = resumes.find(r => r.id === state.selectedResumeId);
   if (found) state.selectedResume = found; \x7d`.
The guard is a JS truthiness test, so `selectedResumeId = 0` is falsy. -/
def getUserResumesFulfilled (s : ResumeState) (resumes : List Resume) : ResumeState :=
  if jsTruthyNum s.selectedResumeId && s.selectedResume == none then
    match resumes.find? (fun r => decide (s.selectedResumeId = some r.id)) with
    | some found => { s with selectedResume := some found }
    | none => s
  else s

/-! ## ScoreGauge (`App.tsx`, `ScoreGauge` component) -/

/-- What the `ScoreGauge` component of `App.tsx` renders for a given
`score` prop: the pie `data` values `[score, 100 - score]`, the chosen
`color`, and the center `Label` text `score%`. -/
structure GaugeRender where
  scoreValue : Int
  remainingValue : Int
  color : String
  labelText : String
deriving DecidableEq

/-- The `ScoreGauge` component body (`App.tsx`):
`data = [\x7b value: score \x7d, \x7b value: 100 - score \x7d]`,
`color = score > 80 ? green : score > 60 ? amber : red`,
`Label value = score%`. No clamping is applied anywhere. -/
def scoreGauge (score : Int) : GaugeRender :=
  { scoreValue := score
    remainingValue := 100 - score
    color := if score > 80 then "#10B981"
             else if score > 60 then "#F59E0B"
             else "#EF4444"
    labelText := toString score ++ "%" }

/-- Modelled from the spec: the clamping rule the specification states
for the missing scoring backend ("Scores are clamped to [0,100]"). -/
def specClamp (s : Int) : Int := max 0 (min 100 s)

/-! ## analyzeResume mutation and handleAnalyze
(`features/resume/resumeAPI.ts`, `pages/ResumeViewer.tsx`) -/

/-- The request object built by the `analyzeResume` mutation's `query`
function (`resumeAPI.ts` lines 45-54): POST to
`/analyze_resume?resume_id=...` with JSON body
`\x7b job_description: jd \x7d`. -/
structure AnalyzeRequest where
  url : String
  method : String
  body : List (String × String)
deriving DecidableEq

/-- Leading-digit `parseInt` as used in `handleAnalyze`
(`parseInt(resumeId)`); a string with no leading digits gives `none`
(JS `NaN`). -/
def jsParseIntNat (s : String) : Option Nat :=
  let ds := (s.data.takeWhile Char.isDigit)
  if ds.isEmpty then none
  else some (ds.foldl (fun n c => 10 * n + (c.toNat - 48)) 0)

/-- The request the `analyzeResume` mutation issues
(`resumeAPI.ts` lines 45-54). `resumeId` is `Option Nat` because JS
`parseInt` can produce `NaN`. -/
def analyzeResumeQuery (resumeId : Option Nat) (jd : String) : AnalyzeRequest :=
  { url := "/analyze_resume?resume_id=" ++
      (match resumeId with | some n => toString n | none => "NaN")
    method := "POST"
    body := [("job_description", jd)] }

/-- JS truthiness of a `string | undefined` value: `undefined` and the
empty string are falsy. -/
def jsTruthyStr : Option String → Bool
  | none => false
  | some v => v != ""

/-- The `handleAnalyze` callback of `ResumeViewer.tsx` (lines 16-20):
`if (resumeId && jd) analyzeResume(\x7b resumeId: parseInt(resumeId), jd \x7d);`
— it issues a request only when both `resumeId` and `jd` are truthy
(nonempty); otherwise nothing is sent. -/
def handleAnalyze (resumeId : Option String) (jd : String) : Option AnalyzeRequest :=
  if jsTruthyStr resumeId && jd != "" then
    match resumeId with
    | some rid => some (analyzeResumeQuery (jsParseIntNat rid) jd)
    | none => none
  else none

/-! ## Spec-modelled backend: structured resume and extraction cache

The extraction, scoring, improvement, enrichment and coordinator code of
the pipeline lives in the FastAPI backend, which is not present under
`src/`; the following definitions are modelled from the specification. -/

/-- Modelled from the spec: section kind tags of a StructuredResume
(spec section 3, Data model). -/
inductive SectionKind
  | summary
  | experience
  | education
  | skills
  | other
deriving DecidableEq

/-- Modelled from the spec: one section of a StructuredResume — a kind
tag and freeform content (spec section 3). -/
structure ResumeSection where
  kind : SectionKind
  content : String
deriving DecidableEq

/-- Modelled from the spec: StructuredResume — an ordered sequence of
sections plus a non-fatal warning list (spec section 3). -/
structure StructuredResume where
  sections : List ResumeSection
  warnings : List String
deriving DecidableEq

/-- Modelled from the spec: state of the Extraction Engine's
content-hash-keyed cache plus a count of provider invocations
(spec section 4.2: "Caches by content hash: identical raw content never
re-invokes the external capability"). -/
structure ExtractState where
  cache : List (Nat × StructuredResume)
  providerCalls : Nat
deriving DecidableEq

/-- Modelled from the spec: `extract` for one raw-content hash. On a
cache hit the cached StructuredResume is returned and the provider is
not invoked; on a miss the provider is invoked once and its result is
cached (spec section 4.2). -/
def extractOp (provider : Nat → StructuredResume) (s : ExtractState)
    (contentHash : Nat) : StructuredResume × ExtractState :=
  match s.cache.lookup contentHash with
  | some r => (r, s)
  | none =>
    let r := provider contentHash
    (r, { cache := (contentHash, r) :: s.cache, providerCalls := s.providerCalls + 1 })

/-- Modelled from the spec: state of the analysis cache keyed by
(resume identity, job-description hash), plus a count of scoring-provider
invocations (spec sections 3 and 4.3). -/
structure AnalyzeState where
  cache : List ((Nat × Nat) × AnalysisResult)
  providerCalls : Nat
deriving DecidableEq

/-- Modelled from the spec: `analyze`/`score` for one
(resume identity, job-description hash) key with a force-recompute flag
(spec section 4.3: "identical inputs return the cached AnalysisResult
unless a force-recompute flag is set"). -/
def analyzeOp (provider : Nat × Nat → AnalysisResult) (force : Bool)
    (s : AnalyzeState) (key : Nat × Nat) : AnalysisResult × AnalyzeState :=
  match (if force then none else s.cache.lookup key) with
  | some r => (r, s)
  | none =>
    let r := provider key
    (r, { cache := (key, r) :: s.cache, providerCalls := s.providerCalls + 1 })

/-! ## Spec-modelled backend: missing-keyword computation -/

/-- Modelled from the spec: tokenization used by the Scoring Engine's
keyword comparison — split on non-alphanumeric characters and lowercase,
making the comparison case-insensitive (spec section 4.3). -/
def splitWordsAux : List Char → List Char → List (List Char)
  | [], acc => if acc.isEmpty then [] else [acc.reverse]
  | c :: cs, acc =>
    if c.isAlphanum then splitWordsAux cs (c :: acc)
    else if acc.isEmpty then splitWordsAux cs []
    else acc.reverse :: splitWordsAux cs []

/-- Modelled from the spec: lowercased word tokens of a text
(spec section 4.3, case-insensitive comparison). -/
def tokenizeLower (s : String) : List String :=
  (splitWordsAux s.data []).map (fun w => String.mk (w.map Char.toLower))

/-- Modelled from the spec: the concrete stop-word/boilerplate list the
spec leaves as an implementer-documented choice (spec sections 4.3
and 9, open question on keyword significance). -/
def stopWords : List String :=
  ["a", "an", "the", "and", "or", "of", "in", "to", "with", "for", "on",
   "at", "is", "are", "we", "you", "our", "as", "by", "be"]

/-- Deduplication keeping the first occurrence of each element. -/
def dedupFirst : List String → List String
  | [] => []
  | x :: xs => x :: (dedupFirst xs).filter (fun y => y ≠ x)

/-- Modelled from the spec: the job description's significant terms —
lowercased tokens after stop-word removal, deduplicated
(spec section 4.3). -/
def significantTerms (jd : String) : List String :=
  dedupFirst ((tokenizeLower jd).filter (fun t => t ∉ stopWords))

/-- Modelled from the spec: the missing-keyword set — the job
description's significant terms absent from the resume's tokens,
compared case-insensitively (spec section 4.3). -/
def missingKeywords (jd : String) (resumeText : String) : List String :=
  (significantTerms jd).filter (fun t => t ∉ tokenizeLower resumeText)

/-! ## Spec-modelled backend: pipeline coordinator state machine -/

/-- Modelled from the spec: the job state machine's states
(spec section 4.6). -/
inductive JobStage
  | PENDING
  | EXTRACTING
  | EXTRACTED
  | ANALYZING
  | ANALYZED
  | IMPROVING
  | DONE
  | FAILED
deriving DecidableEq

/-- Modelled from the spec: the payload a finished or failed job exposes
to the caller — the last completed stage's outputs are retained even in
`FAILED` (spec sections 4.6 and 7). -/
structure JobOutcome where
  stage : JobStage
  structured : Option StructuredResume
  analysis : Option AnalysisResult
  improvements : List Improvement
  failureReason : Option String
deriving DecidableEq

/-- Modelled from the spec: one pipeline run
(extract → score → improve) where each stage either succeeds or fails
with a reason; a stage failure moves the job to `FAILED` while keeping
every earlier stage's output in the outcome (spec sections 4.6 and 7). -/
def runJob (ext : Except String StructuredResume)
    (sc : StructuredResume → Except String AnalysisResult)
    (imp : StructuredResume → AnalysisResult → Except String (List Improvement)) :
    JobOutcome :=
  match ext with
  | Except.error e =>
    { stage := JobStage.FAILED, structured := none, analysis := none,
      improvements := [], failureReason := some e }
  | Except.ok sr =>
    match sc sr with
    | Except.error e =>
      { stage := JobStage.FAILED, structured := some sr, analysis := none,
        improvements := [], failureReason := some e }
    | Except.ok ar =>
      match imp sr ar with
      | Except.error e =>
        { stage := JobStage.FAILED, structured := some sr, analysis := some ar,
          improvements := [], failureReason := some e }
      | Except.ok imps =>
        { stage := JobStage.DONE, structured := some sr, analysis := some ar,
          improvements := imps, failureReason := none }

/-! ## Spec-modelled backend: enrichment service -/

/-- Modelled from the spec: EnrichmentStats — named metrics, a fetch
timestamp, a TTL and a stale marker (spec section 3). -/
structure EnrichmentStats where
  metrics : List (String × String)
  fetchedAt : Nat
  ttl : Nat
  stale : Bool
deriving DecidableEq

/-- Modelled from the spec: one refresh attempt of the Enrichment
Service. `providerResult` is `some metrics` when the statistics
provider call succeeded and `none` when it failed; on failure the last
cached entry is returned marked stale if one exists, else the operation
fails with `EnrichmentUnavailable` (spec section 4.5). -/
def refreshEnrichment (now : Nat) (ttl : Nat) (cached : Option EnrichmentStats)
    (providerResult : Option (List (String × String))) :
    Except String EnrichmentStats :=
  match providerResult with
  | some m => Except.ok { metrics := m, fetchedAt := now, ttl := ttl, stale := false }
  | none =>
    match cached with
    | some c => Except.ok { c with stale := true }
    | none => Except.error "EnrichmentUnavailable"

/-! ## Spec-modelled backend: coordinator registry for concurrent analyze -/

/-- Modelled from the spec: the Pipeline Coordinator's shared state — an
analysis cache, the registry entry recording the key of the in-flight
job with its waiting callers, a count of scoring-provider invocations,
and the results delivered to callers (spec sections 4.6, 5 and 9:
"an explicit registry mapping resume identity to an in-progress job
handle"). -/
structure CoordState where
  cache : List ((Nat × Nat) × AnalysisResult)
  inFlight : Option (Nat × Nat)
  waiters : List Nat
  invocations : Nat
  delivered : List (Nat × AnalysisResult)
deriving DecidableEq

/-- Modelled from the spec: the coordinator's initial state. -/
def emptyCoord : CoordState :=
  { cache := [], inFlight := none, waiters := [], invocations := 0, delivered := [] }

/-- Modelled from the spec: an `analyze` request by `caller` for `key`
arriving at the coordinator. A cached result is delivered at once; if a
job for the same key is in flight the caller joins its waiters instead
of starting a duplicate; otherwise a new job starts, invoking the
scoring provider exactly once (spec sections 4.6 and 5). -/
def coordRequest (caller : Nat) (key : Nat × Nat) (s : CoordState) : CoordState :=
  match s.cache.lookup key with
  | some r => { s with delivered := (caller, r) :: s.delivered }
  | none =>
    if s.inFlight = some key then
      { s with waiters := caller :: s.waiters }
    else
      { s with inFlight := some key, waiters := caller :: s.waiters,
               invocations := s.invocations + 1 }

/-- Modelled from the spec: completion of the in-flight job with provider
result `r` — the cache is written once and every waiting caller receives
the same result (spec section 5). -/
def coordComplete (r : AnalysisResult) (s : CoordState) : CoordState :=
  match s.inFlight with
  | some key =>
    { s with inFlight := none, cache := (key, r) :: s.cache,
             delivered := s.waiters.map (fun c => (c, r)) ++ s.delivered,
             waiters := [] }
  | none => s

/-- Concrete state for the id-zero counterexample: a resume whose id is
`0`, a valid JS number. -/
def resumeIdZero : Resume :=
  { id := 0, user_id := 1, file_type := "pdf", ats_score := 50,
    role_match := 50, created_at := "2024-01-01", extracted_data := none }

/-- Concrete slice state whose `selectedResumeId` is `some 0` (non-null)
and whose `selectedResume` is null. -/
def stateIdZero : ResumeState :=
  { selectedResumeId := some 0, selectedResume := none,
    currentAnalysis := none, isAnalysisPanelOpen := true }

/-- Concrete cached EnrichmentStats entry that is far older than its TTL
when read at time 100. -/
def agedStats : EnrichmentStats :=
  { metrics := [("commits", "5")], fetchedAt := 0, ttl := 10, stale := false }

/-! ## Helper lemmas -/

/-- Membership is preserved by first-occurrence deduplication. -/
theorem dedupFirst_mem (t : String) :
    ∀ l : List String, t ∈ dedupFirst l ↔ t ∈ l := by
  intro l
  induction l with
  | nil => simp [dedupFirst]
  | cons x xs ih =>
    simp only [dedupFirst, List.mem_cons, List.mem_filter, decide_eq_true_eq]
    constructor
    · rintro (rfl | ⟨hm, _⟩)
      · exact Or.inl rfl
      · exact Or.inr (ih.mp hm)
    · rintro (rfl | hm)
      · exact Or.inl rfl
      · by_cases hx : t = x
        · exact Or.inl hx
        · exact Or.inr ⟨ih.mpr hm, hx⟩

/-- First-occurrence deduplication yields a duplicate-free list. -/
theorem dedupFirst_nodup : ∀ l : List String, (dedupFirst l).Nodup := by
  intro l
  induction l with
  | nil => simp [dedupFirst]
  | cons x xs ih =>
    simp only [dedupFirst, List.nodup_cons]
    constructor
    · intro hmem
      have := (List.mem_filter.mp hmem).2
      simp at this
    · exact ih.filter _

/-- A burst of same-key requests hitting a coordinator that already has
this key in flight (and an empty cache) joins waiters without invoking
the provider again. -/
theorem coordFold_inFlight (k : Nat × Nat) :
    ∀ (callers : List Nat) (s : CoordState), s.cache = [] → s.inFlight = some k →
      (callers.foldl (fun st c => coordRequest c k st) s).invocations = s.invocations ∧
      (callers.foldl (fun st c => coordRequest c k st) s).cache = [] ∧
      (callers.foldl (fun st c => coordRequest c k st) s).inFlight = some k := by
  intro callers
  induction callers with
  | nil => intro s hc hf; exact ⟨rfl, hc, hf⟩
  | cons c cs ih =>
    intro s hc hf
    have hr : coordRequest c k s = { s with waiters := c :: s.waiters } := by
      unfold coordRequest
      rw [hc]
      simp [List.lookup, hf]
    simp only [List.foldl_cons, hr]
    exact ih _ hc hf

/-! ## Claim theorems -/

/-- Claim C9: for every resume-slice state and every payload, the
`setSelectedResume` reducer sets `selectedResumeId` to the payload's id
(null when the payload is null, via `Option.map`), sets `selectedResume`
to the payload, resets `currentAnalysis` to null, and leaves
`isAnalysisPanelOpen` unchanged. -/
theorem setSelectedResume_spec (s : ResumeState) (p : Option Resume) :
    (setSelectedResume s p).selectedResumeId = p.map Resume.id ∧
    (setSelectedResume s p).selectedResume = p ∧
    (setSelectedResume s p).currentAnalysis = none ∧
    (setSelectedResume s p).isAnalysisPanelOpen = s.isAnalysisPanelOpen :=
  ⟨rfl, rfl, rfl, rfl⟩

/-- Claim C10, counterexample: a state with `selectedResumeId = some 0`
(non-null) and `selectedResume = null`, and a fetched list containing a
resume with id `0`, satisfies all of the claim's conditions for
assignment, yet the reducer leaves `selectedResume` null: the code's
guard `state.selectedResumeId && ...` is a JS truthiness test and `0` is
falsy. -/
theorem getUserResumesFulfilled_id_zero_cex :
    stateIdZero.selectedResumeId = some resumeIdZero.id ∧
    stateIdZero.selectedResume = none ∧
    resumeIdZero ∈ [resumeIdZero] ∧
    (getUserResumesFulfilled stateIdZero [resumeIdZero]).selectedResume = none ∧
    getUserResumesFulfilled stateIdZero [resumeIdZero] = stateIdZero := by
  refine ⟨rfl, rfl, List.mem_singleton_self _, rfl, rfl⟩

/-- Claim C10, amended: the `getUserResumes`-fulfilled reducer assigns
`selectedResume` only when `selectedResumeId` is truthy (non-null AND
nonzero), `selectedResume` is currently null, and the list contains a
resume whose id equals `selectedResumeId` (the first such resume is
assigned); in every other case `selectedResume` is unchanged, and the
fields `selectedResumeId`, `currentAnalysis` and `isAnalysisPanelOpen`
are always unchanged. -/
theorem getUserResumesFulfilled_spec (s : ResumeState) (rs : List Resume) :
    (getUserResumesFulfilled s rs).selectedResumeId = s.selectedResumeId ∧
    (getUserResumesFulfilled s rs).currentAnalysis = s.currentAnalysis ∧
    (getUserResumesFulfilled s rs).isAnalysisPanelOpen = s.isAnalysisPanelOpen ∧
    ((getUserResumesFulfilled s rs).selectedResume = s.selectedResume ∨
      (s.selectedResume = none ∧ jsTruthyNum s.selectedResumeId = true ∧
        ∃ r, r ∈ rs ∧ s.selectedResumeId = some r.id ∧
          (getUserResumesFulfilled s rs).selectedResume = some r)) := by
  unfold getUserResumesFulfilled
  cases hb : (jsTruthyNum s.selectedResumeId && s.selectedResume == none) with
  | false => simp
  | true =>
    have hb' := hb
    rw [Bool.and_eq_true, beq_iff_eq] at hb'
    obtain ⟨ht, hn⟩ := hb'
    simp only [hb, if_true]
    cases hf : rs.find? (fun r => decide (s.selectedResumeId = some r.id)) with
    | none => simp
    | some found =>
      have hp :=
        @List.find?_some _ (fun r => decide (s.selectedResumeId = some r.id)) found rs hf
      refine ⟨rfl, rfl, rfl, Or.inr ⟨hn, ht, found, List.mem_of_find?_eq_some hf, ?_, rfl⟩⟩
      exact of_decide_eq_true hp

/-- Claim C2, counterexample: the `ScoreGauge` component of `App.tsx`
does not clamp — a score of `137` is rendered as the label `137%` (not
`100%`) with a negative `Remaining` slice of `-37`, and `-5` is rendered
as `-5%`. -/
theorem scoreGauge_no_clamp_cex :
    (scoreGauge 137).labelText = "137%" ∧
    (scoreGauge 137).labelText ≠ "100%" ∧
    (scoreGauge 137).scoreValue = 137 ∧
    (scoreGauge 137).remainingValue = -37 ∧
    (scoreGauge (-5)).labelText = "-5%" ∧
    (scoreGauge (-5)).scoreValue = -5 := by
  refine ⟨rfl, by decide, rfl, by decide, rfl, rfl⟩

/-- Claim C2, amended: the frontend `ScoreGauge` renders the provider
score unchanged — the rendered value equals the input and the remaining
slice is `100 - score`, so out-of-range inputs stay out of range; the
clamp the spec describes (`specClamp`, mapping 137 to 100 and -5 to 0)
is not applied by the cited code. -/
theorem scoreGauge_passthrough (s : Int) :
    (scoreGauge s).scoreValue = s ∧
    (scoreGauge s).remainingValue = 100 - s ∧
    specClamp 137 = 100 ∧
    specClamp (-5) = 0 :=
  ⟨rfl, rfl, by decide, by decide⟩

/-- Claim C4, counterexample: with a valid resume id and an absent
(empty) job description, `handleAnalyze` issues no request at all — the
analyze operation does not run, let alone succeed — and
`role_match_percentage` is a required field of the declared
`AnalysisResult`, so it is never omitted. -/
theorem handleAnalyze_empty_jd_cex :
    handleAnalyze (some "1") "" = none ∧
    "role_match_percentage" ∈ analysisResultFields := by
  refine ⟨rfl, by decide⟩

/-- Claim C4, amended: the job description is effectively required: the
frontend invokes `analyze` exactly when both the resume id and the job
description are truthy (nonempty), the request body always carries the
`job_description` field, and `role_match_percentage` is a required field
of the declared `AnalysisResult` (never omitted). -/
theorem handleAnalyze_requires_jd (rid : Option String) (jd : String) (n : Option Nat) :
    ((handleAnalyze rid jd).isSome = (jsTruthyStr rid && jd != "")) ∧
    (analyzeResumeQuery n jd).body = [("job_description", jd)] ∧
    "role_match_percentage" ∈ analysisResultFields := by
  refine ⟨?_, rfl, by decide⟩
  cases rid with
  | none => simp [handleAnalyze, jsTruthyStr]
  | some v =>
    unfold handleAnalyze
    cases hb : (jsTruthyStr (some v) && jd != "") with
    | false => simp [hb]
    | true => simp [hb]

/-- Claim C6, counterexample: the declared response types of the cited
operations carry no status tag — neither the `uploadResume` response
type nor `AnalysisResult` has a `status` field. -/
theorem status_tag_missing_cex :
    "status" ∉ uploadResponseFields ∧ "status" ∉ analysisResultFields := by
  decide

/-- Claim C6, amended: none of the declared result types of the public
operations (upload's response, extract's `Resume`, analyze's
`AnalysisResult`, `Improvement`, and the `User` enrichment-stats
carrier) includes a `status` field, so callers cannot distinguish
cached from computed from degraded output through the typed payload. -/
theorem no_status_tag_any_result :
    "status" ∉ uploadResponseFields ∧
    "status" ∉ resumeFields ∧
    "status" ∉ analysisResultFields ∧
    "status" ∉ improvementFields ∧
    "status" ∉ userFields := by
  decide

/-- Claim C1, counterexample: the second `analyze` call cannot carry a
status `cached`: the declared `AnalysisResult` type
(`types/index.ts` lines 29-35) has exactly the fields
`ats_compliance_score`, `role_match_percentage` and `keyword_coverage`
and no `status` field at all. -/
theorem analysisResult_no_status_cex :
    "status" ∉ analysisResultFields ∧ "cached" ∉ analysisResultFields := by
  decide

/-- Claim C1, amended: calling `extract` twice on identical raw content
returns a bit-identical StructuredResume with the extraction provider
invoked at most once more than before the first call and not at all by
the second call, and calling `analyze` twice with the same
(resumeId, jobDescription) key and the force flag unset returns the same
AnalysisResult with no second provider invocation (both modelled from
the spec, the backend being absent from `src/`); however the declared
`AnalysisResult` carries no `status` field, so the second response is
not marked `cached`. -/
theorem extract_analyze_cache_spec (p : Nat → StructuredResume)
    (s : ExtractState) (ch : Nat) (q : Nat × Nat → AnalysisResult)
    (t : AnalyzeState) (k : Nat × Nat) :
    (extractOp p (extractOp p s ch).2 ch).1 = (extractOp p s ch).1 ∧
    (extractOp p (extractOp p s ch).2 ch).2.providerCalls
      = (extractOp p s ch).2.providerCalls ∧
    (extractOp p s ch).2.providerCalls ≤ s.providerCalls + 1 ∧
    (analyzeOp q false (analyzeOp q false t k).2 k).1 = (analyzeOp q false t k).1 ∧
    (analyzeOp q false (analyzeOp q false t k).2 k).2.providerCalls
      = (analyzeOp q false t k).2.providerCalls ∧
    "status" ∉ analysisResultFields := by
  refine ⟨?_, ?_, ?_, ?_, ?_, by decide⟩ <;>
    first
    | (cases hl : s.cache.lookup ch with
        | some r => simp [extractOp, hl]
        | none => simp [extractOp, hl, List.lookup])
    | (cases hl : t.cache.lookup k with
        | some r => simp [analyzeOp, hl]
        | none => simp [analyzeOp, hl, List.lookup])

/-- Claim C3: the missing-keyword set (modelled from the spec, the
scoring backend being absent from `src/`) is exactly the job
description's significant terms — lowercased tokens after stop-word
removal, deduplicated — that are absent from the resume's lowercased
tokens; it is duplicate-free, and for job description
`Python, Docker, Kubernetes` with a resume mentioning only Python the
set is exactly Docker and Kubernetes (case-insensitively). -/
theorem missingKeywords_spec (jd resumeText : String) :
    (∀ t, t ∈ missingKeywords jd resumeText ↔
        (t ∈ significantTerms jd ∧ t ∉ tokenizeLower resumeText)) ∧
    (missingKeywords jd resumeText).Nodup ∧
    missingKeywords "Python, Docker, Kubernetes" "Experienced in Python development"
      = ["docker", "kubernetes"] := by
  refine ⟨fun t => ?_, ?_, by decide⟩
  · simp [missingKeywords, List.mem_filter]
  · exact (dedupFirst_nodup _).filter _

/-- Claim C5: (modelled from the spec, the Pipeline Coordinator being
absent from `src/`) whenever extraction succeeded, the job outcome
contains the extracted StructuredResume no matter what happens later;
and when the scoring provider then fails, the outcome is the `FAILED`
state still carrying that StructuredResume together with the explicit
failure reason — never a bare error without the partial context. -/
theorem runJob_partial_on_score_failure (sr : StructuredResume)
    (sc : StructuredResume → Except String AnalysisResult)
    (imp : StructuredResume → AnalysisResult → Except String (List Improvement))
    (e : String) :
    (runJob (Except.ok sr) sc imp).structured = some sr ∧
    runJob (Except.ok sr) (fun _ => Except.error e) imp =
      { stage := JobStage.FAILED, structured := some sr, analysis := none,
        improvements := [], failureReason := some e } := by
  constructor
  · cases hsc : sc sr with
    | error e' => simp [runJob, hsc]
    | ok ar => cases himp : imp sr ar <;> simp [runJob, hsc, himp]
  · rfl

/-- Claim C7: (modelled from the spec, the Enrichment Service being
absent from `src/`) when the statistics provider fails during refresh,
any cached entry — including one older than its TTL, as the concrete
aged entry fetched at 0 with TTL 10 and read at 100 shows — is returned
marked stale rather than an error, and only with no cached entry does
the operation fail with `EnrichmentUnavailable`. -/
theorem refreshEnrichment_stale_fallback (now ttl : Nat) (c : EnrichmentStats) :
    refreshEnrichment now ttl (some c) none = Except.ok { c with stale := true } ∧
    ({ c with stale := true } : EnrichmentStats).stale = true ∧
    refreshEnrichment now ttl none none = Except.error "EnrichmentUnavailable" ∧
    agedStats.fetchedAt + agedStats.ttl < 100 ∧
    refreshEnrichment 100 agedStats.ttl (some agedStats) none
      = Except.ok { agedStats with stale := true } := by
  exact ⟨rfl, rfl, rfl, by decide, rfl⟩

/-- Claim C8: (modelled from the spec, the Pipeline Coordinator being
absent from `src/`) two analyze requests for the same key arriving in
either order before completion cause exactly one scoring-provider
invocation and both callers receive the same AnalysisResult on
completion; and any burst of same-key requests starting from the empty
coordinator invokes the provider at most once — a concurrent request
observes the in-flight job instead of starting a duplicate. -/
theorem coord_single_invocation (k : Nat × Nat) (r : AnalysisResult) :
    (coordComplete r (coordRequest 2 k (coordRequest 1 k emptyCoord))).invocations = 1 ∧
    (1, r) ∈ (coordComplete r (coordRequest 2 k (coordRequest 1 k emptyCoord))).delivered ∧
    (2, r) ∈ (coordComplete r (coordRequest 2 k (coordRequest 1 k emptyCoord))).delivered ∧
    (coordComplete r (coordRequest 1 k (coordRequest 2 k emptyCoord))).invocations = 1 ∧
    (1, r) ∈ (coordComplete r (coordRequest 1 k (coordRequest 2 k emptyCoord))).delivered ∧
    (2, r) ∈ (coordComplete r (coordRequest 1 k (coordRequest 2 k emptyCoord))).delivered ∧
    ∀ callers : List Nat,
      (callers.foldl (fun st c => coordRequest c k st) emptyCoord).invocations ≤ 1 := by
  refine ⟨?_, ?_, ?_, ?_, ?_, ?_, ?_⟩
  · simp [coordRequest, coordComplete, emptyCoord, List.lookup]
  · simp [coordRequest, coordComplete, emptyCoord, List.lookup]
  · simp [coordRequest, coordComplete, emptyCoord, List.lookup]
  · simp [coordRequest, coordComplete, emptyCoord, List.lookup]
  · simp [coordRequest, coordComplete, emptyCoord, List.lookup]
  · simp [coordRequest, coordComplete, emptyCoord, List.lookup]
  · intro callers
    cases callers with
    | nil => simp [emptyCoord]
    | cons c cs =>
      have h1 : coordRequest c k emptyCoord =
          { cache := [], inFlight := some k, waiters := [c],
            invocations := 1, delivered := [] } := by
        simp [coordRequest, emptyCoord, List.lookup]
      have h2 := (coordFold_inFlight k cs
        { cache := [], inFlight := some k, waiters := [c],
          invocations := 1, delivered := [] } rfl rfl).1
      simp only [List.foldl_cons, h1, h2]
      exact Nat.le_refl 1
